import Mathlib

/-!
Verification development for the CADD pipeline orchestrator
(`src/App.tsx`, `src/types.ts`, `src/constants.tsx`).

The orchestrator is a thin state machine over ten fixed steps.  We embed
its state (`PipelineState`), the step descriptors (`PIPELINE_STEPS`), the
dynamic JSON-ish payload values flowing through step results (`JsValue`),
and the core operation `handleStepExecution` (the `executeActiveStep`
operation of the spec), parameterised by the outcome of the single
Analysis Service call an invocation may issue.  The second component of
`handleStepExecution`'s output records the collaborator call issued by
the invocation (`none` when the pre-flight dependency check fails), so
"no network call is made" claims are statable.
-/

/-- The ten fixed step identifiers (`StepId` in `src/types.ts`), in
pipeline order. -/
inductive StepId where
  | dataAssembly
  | pocketDetection
  | generativeDesign
  | rapidTriage
  | dockingRescoring
  | mdSimulation
  | admetPrediction
  | activeLearning
  | synthesisPlanning
  | finalReport
deriving DecidableEq, Repr

/-- Dynamic JavaScript values as they appear in `StepResult.data : any`.
Numbers are modelled as rationals; `NaN` has no constructor — a
`pIC50` field that is not a number is treated as yielding `NaN` under
arithmetic, which `toNumber` models by returning `none` (numeric strings
and other `ToNumber` coercions are not modelled; no payload a claim
touches contains them). -/
inductive JsValue where
  | undefined
  | null
  | bool (b : Bool)
  | num (q : ℚ)
  | str (s : String)
  | arr (elems : List JsValue)
  | obj (fields : List (String × JsValue))

/-- The `type` discriminant of `StepResult` in `src/types.ts`:
`'json' | 'text' | 'image_and_text'`. -/
inductive ResultType where
  | json
  | text
  | imageAndText
deriving DecidableEq, Repr

/-- Step results (`StepResult` in `src/types.ts`). -/
structure StepResult where
  type : ResultType
  data : JsValue
  explanation : Option String := none

/-- JavaScript property access `v.k`.  Yields `undefined` when the key is
absent or the receiver is not an object.  (In JavaScript, access on
`null`/`undefined` throws a `TypeError` instead, which the surrounding
`catch` would turn into an error message; no state reachable in any
claim performs such an access, so the total model is adequate.) -/
def getField (v : JsValue) (k : String) : JsValue :=
  match v with
  | .obj fields =>
    match fields.find? (fun p => p.1 == k) with
    | some p => p.2
    | none => .undefined
  | _ => .undefined

/-- JavaScript truthiness of a value (arrays and objects are always
truthy; in particular the empty array `[]` is truthy). -/
def truthy : JsValue → Bool
  | .undefined => false
  | .null => false
  | .bool b => b
  | .num q => q != 0
  | .str s => s != ""
  | .arr _ => true
  | .obj _ => true

/-- Numeric view of a value: `some q` for a number, `none` standing for
`NaN` (see `JsValue`). -/
def toNumber : JsValue → Option ℚ
  | .num q => some q
  | _ => none

/-- Sign of the comparator `(a, b) => b.pIC50 - a.pIC50` used by the
source's `.sort` calls.  Per the ECMAScript sort specification a `NaN`
comparator result is treated as `+0`. -/
def pIC50CompareSign (a b : JsValue) : Int :=
  match toNumber (getField a "pIC50"), toNumber (getField b "pIC50") with
  | some x, some y => if y < x then -1 else if x < y then 1 else 0
  | _, _ => 0

/-- Insert `x` after every element `y` of the accumulator with
`le y x = true`: the insertion step of a stable sort. -/
def jsSortInsert (le : JsValue → JsValue → Bool) (x : JsValue) :
    List JsValue → List JsValue
  | [] => [x]
  | y :: ys => if le y x then y :: jsSortInsert le x ys else x :: y :: ys

/-- Model of `Array.prototype.sort` with a consistent comparator: the unique
stable reordering of the input along `le` (insertion sort). -/
def jsSortBy (le : JsValue → JsValue → Bool) (l : List JsValue) : List JsValue :=
  l.foldl (fun acc x => jsSortInsert le x acc) []

/-- The `before-or-tied` relation induced by the descending-`pIC50`
comparator: `a` may stay before `b` iff the comparator on `(a, b)` is
`≤ 0`. -/
def triageLe (a b : JsValue) : Bool :=
  decide (pIC50CompareSign a b ≤ 0)

/-- Stable sort of a copy of the triage list, descending by `pIC50`:
the source's `[...triage_results].sort((a, b) => b.pIC50 - a.pIC50)`. -/
def sortedTriage (xs : List JsValue) : List JsValue :=
  jsSortBy triageLe xs

/-- A step descriptor from `src/constants.tsx` (the `Icon` field, a
React component, carries no data and is omitted). -/
structure PipelineStep where
  id : StepId
  name : String
  description : String

/-- The constant `PIPELINE_STEPS` from `src/constants.tsx`. -/
def PIPELINE_STEPS : List PipelineStep := [
  { id := .dataAssembly, name := "Data Assembly & Featurization",
    description := "Standardize and featurize input molecules." },
  { id := .pocketDetection, name := "Pocket Detection",
    description := "Locate binding pockets on the protein target." },
  { id := .generativeDesign, name := "Generative Design",
    description := "Create novel candidate molecules." },
  { id := .rapidTriage, name := "Rapid Triage",
    description := "Quickly filter candidates with learned models." },
  { id := .dockingRescoring, name := "Docking & AI Rescoring",
    description := "Perform physics-based docking and score with AI." },
  { id := .mdSimulation, name := "MD Sanity Check",
    description := "Check binding stability with molecular dynamics." },
  { id := .admetPrediction, name := "ADMET Prediction",
    description := "Predict absorption, distribution, metabolism, excretion, and toxicity." },
  { id := .activeLearning, name := "Active Learning Loop",
    description := "Intelligently select the next compounds to test." },
  { id := .synthesisPlanning, name := "Synthesis Planning",
    description := "Check synthetic accessibility of top candidates." },
  { id := .finalReport, name := "Final Report",
    description := "Generate a summary of the entire pipeline." }]

/-- The React component state of `App` (`src/App.tsx`): `isLoading` is
the spec's `isRunning`, `error` the spec's `lastError`. -/
structure PipelineState where
  activeStep : StepId
  moleculeSmiles : String
  receptorPdbId : String
  results : StepId → Option StepResult
  isLoading : Bool
  error : Option String

/-- Error message thrown by the `rapid-triage` case. -/
def genMissingMsg : String :=
  "Generated molecules not found. Please complete the \"Generative Design\" step first."

/-- Error message thrown by the `docking-rescoring` through
`final-report` cases. -/
def triageMissingMsg : String :=
  "Triage results not found. Please complete the \"Rapid Triage\" step first."

/-- The generic fallback used as `e.message || 'An unexpected error occurred.'`. -/
def fallbackErrorMsg : String := "An unexpected error occurred."

/-- The helper `getTopTriageCandidate` from `src/App.tsx`: guard the
`rapid-triage` result, sort a copy of `triage_results` descending by
`pIC50`, return the first entry's `smiles`; `null` when the guard
fails. -/
def getTopTriageCandidate (results : StepId → Option StepResult) : JsValue :=
  match results .rapidTriage with
  | some triageResult =>
    if triageResult.type = .json then
      if truthy (getField triageResult.data "triage_results") then
        match getField triageResult.data "triage_results" with
        | .arr xs =>
          if 0 < xs.length then
            getField ((sortedTriage xs).headD .undefined) "smiles"
          else .null
        | _ => .null
      else .null
    else .null
  | none => .null

/-- One Analysis Service invocation, tagged by the `geminiService`
function called, carrying the arguments the orchestrator passes. -/
inductive CallArgs where
  | analyzeDataAssembly (smiles : String)
  | detectPocket (smiles : String)
  | generateCandidates (smiles : String)
  | triageCandidates (generated : JsValue)
  | runDocking (topSmiles : List JsValue) (receptorPdbId : String)
  | runMDSimulation (molecule : JsValue)
  | predictADMET (molecule : JsValue)
  | suggestNextSteps (molecule : JsValue)
  | planSynthesis (molecule : JsValue)
  | generateFinalReport (moleculeSmiles : String) (finalCandidate : JsValue)
      (results : StepId → Option StepResult)

/-- The pre-flight part of the `switch` in `handleStepExecution`:
resolve the active step's input from user fields and prior results,
yielding either the collaborator call to issue or the thrown
dependency-missing message. -/
def resolveCall (st : PipelineState) : Except String CallArgs :=
  match st.activeStep with
  | .dataAssembly => .ok (.analyzeDataAssembly st.moleculeSmiles)
  | .pocketDetection => .ok (.detectPocket st.moleculeSmiles)
  | .generativeDesign => .ok (.generateCandidates st.moleculeSmiles)
  | .rapidTriage =>
    match st.results .generativeDesign with
    | some generatedSmilesResult =>
      if generatedSmilesResult.type = .json then
        if truthy (getField generatedSmilesResult.data "generated_smiles") then
          .ok (.triageCandidates (getField generatedSmilesResult.data "generated_smiles"))
        else .error genMissingMsg
      else .error genMissingMsg
    | none => .error genMissingMsg
  | .dockingRescoring =>
    match st.results .rapidTriage with
    | some triageResult =>
      if triageResult.type = .json then
        if truthy (getField triageResult.data "triage_results") then
          match getField triageResult.data "triage_results" with
          | .arr xs =>
            if 0 < xs.length then
              .ok (.runDocking (((sortedTriage xs).take 3).map
                    (fun item => getField item "smiles")) st.receptorPdbId)
            else .error triageMissingMsg
          | _ => .error triageMissingMsg
        else .error triageMissingMsg
      else .error triageMissingMsg
    | none => .error triageMissingMsg
  | .mdSimulation =>
    let topMolecule := getTopTriageCandidate st.results
    if truthy topMolecule then .ok (.runMDSimulation topMolecule)
    else .error triageMissingMsg
  | .admetPrediction =>
    let topMolecule := getTopTriageCandidate st.results
    if truthy topMolecule then .ok (.predictADMET topMolecule)
    else .error triageMissingMsg
  | .activeLearning =>
    let topMolecule := getTopTriageCandidate st.results
    if truthy topMolecule then .ok (.suggestNextSteps topMolecule)
    else .error triageMissingMsg
  | .synthesisPlanning =>
    let topMolecule := getTopTriageCandidate st.results
    if truthy topMolecule then .ok (.planSynthesis topMolecule)
    else .error triageMissingMsg
  | .finalReport =>
    let finalCandidateSmiles := getTopTriageCandidate st.results
    if truthy finalCandidateSmiles then
      .ok (.generateFinalReport st.moleculeSmiles finalCandidateSmiles st.results)
    else .error triageMissingMsg

/-- The scan `PIPELINE_STEPS.findIndex(step => step.id === activeStep)`. -/
def currentStepIndexOf (id : StepId) : Nat :=
  PIPELINE_STEPS.findIdx (fun step => step.id == id)

/-- The operation `handleStepExecution` from `src/App.tsx` (the spec's
`executeActiveStep`), per invocation.  The parameter `outcome`
is the settled result of the single awaited collaborator call (only
consulted when the pre-flight resolution issues one).  Returns the
state after the invocation completes together with the collaborator
call issued, `none` when the dependency check threw before any call.
The function performs no `isLoading` guard, exactly as the source.
The index `currentStepIndex + 1` is in bounds whenever the guard
`currentStepIndex < PIPELINE_STEPS.length - 1` holds, so the `getD`
default is unreachable. -/
def handleStepExecution (st : PipelineState) (outcome : Except String StepResult) :
    PipelineState × Option CallArgs :=
  let st1 : PipelineState := { st with isLoading := true, error := none }
  let currentStepIndex := currentStepIndexOf st.activeStep
  match resolveCall st with
  | .error msg =>
    ({ st1 with error := some (if msg = "" then fallbackErrorMsg else msg),
                isLoading := false }, none)
  | .ok call =>
    match outcome with
    | .ok response =>
      let st2 : PipelineState :=
        { st1 with results := fun j => if j = st.activeStep then some response else st1.results j }
      let nextId : StepId :=
        (Option.map (fun s => s.id) (PIPELINE_STEPS.get? (currentStepIndex + 1))).getD
          st2.activeStep
      let st3 : PipelineState :=
        if currentStepIndex < PIPELINE_STEPS.length - 1 then
          { st2 with activeStep := nextId }
        else st2
      ({ st3 with isLoading := false }, some call)
    | .error m =>
      ({ st1 with error := some (if m = "" then fallbackErrorMsg else m),
                  isLoading := false }, some call)

/-- The operation `handleStepClick` from `src/App.tsx` (the spec's
`selectStep`). -/
def handleStepClick (st : PipelineState) (id : StepId) : PipelineState :=
  { st with activeStep := id, error := none }

/-- The `onSmilesChange` handler: `setMoleculeSmiles(e.target.value)`. -/
def setMoleculeSmiles (st : PipelineState) (s : String) : PipelineState :=
  { st with moleculeSmiles := s }

/-- The `onReceptorChange` handler: `setReceptorPdbId(e.target.value)`. -/
def setReceptorPdbId (st : PipelineState) (s : String) : PipelineState :=
  { st with receptorPdbId := s }

/-- Successor of a step in the `PIPELINE_STEPS` order; the last step
maps to itself (statement vocabulary for the auto-advance claims). -/
def nextInOrder : StepId → StepId
  | .dataAssembly => .pocketDetection
  | .pocketDetection => .generativeDesign
  | .generativeDesign => .rapidTriage
  | .rapidTriage => .dockingRescoring
  | .dockingRescoring => .mdSimulation
  | .mdSimulation => .admetPrediction
  | .admetPrediction => .activeLearning
  | .activeLearning => .synthesisPlanning
  | .synthesisPlanning => .finalReport
  | .finalReport => .finalReport

/-- Characterization of a complete invocation whose pre-flight
dependency resolution throws: only `error` and `isLoading` change, and
no collaborator call is issued. -/
lemma handleStepExecution_preflight_error (st : PipelineState) (msg : String)
    (o : Except String StepResult) (h : resolveCall st = .error msg) :
    handleStepExecution st o =
      ({ st with isLoading := false,
                 error := some (if msg = "" then fallbackErrorMsg else msg) }, none) := by
  obtain ⟨a, m, rec, res, b, e⟩ := st
  simp only [handleStepExecution, h]

/-- Characterization of a complete invocation whose collaborator call
succeeds: the active step's slot is overwritten with the response, the
active step advances to the successor in the fixed order (the last step
stays put), `error` is cleared and `isLoading` is released. -/
lemma handleStepExecution_ok (st : PipelineState) (c : CallArgs) (r : StepResult)
    (h : resolveCall st = .ok c) :
    handleStepExecution st (.ok r) =
      ({ st with
          results := fun j => if j = st.activeStep then some r else st.results j,
          activeStep := nextInOrder st.activeStep,
          isLoading := false,
          error := none }, some c) := by
  obtain ⟨a, m, rec, res, b, e⟩ := st
  cases a <;> (simp only [handleStepExecution, h]; rfl)

/-- Characterization of a complete invocation whose collaborator call
fails: only `error` and `isLoading` change; the call was issued. -/
lemma handleStepExecution_err (st : PipelineState) (c : CallArgs) (m : String)
    (h : resolveCall st = .ok c) :
    handleStepExecution st (.error m) =
      ({ st with isLoading := false,
                 error := some (if m = "" then fallbackErrorMsg else m) }, some c) := by
  obtain ⟨a, mo, rec, res, b, e⟩ := st
  simp only [handleStepExecution, h]

/-- Inserting an element grows the length by one. -/
lemma length_jsSortInsert (le : JsValue → JsValue → Bool) (x : JsValue)
    (l : List JsValue) : (jsSortInsert le x l).length = l.length + 1 := by
  induction l with
  | nil => rfl
  | cons y ys ih =>
    simp only [jsSortInsert]
    split <;> simp [ih]

/-- The modelled JavaScript sort is length-preserving. -/
lemma length_jsSortBy (le : JsValue → JsValue → Bool) (l : List JsValue) :
    (jsSortBy le l).length = l.length := by
  suffices h : ∀ acc : List JsValue,
      (l.foldl (fun acc x => jsSortInsert le x acc) acc).length = acc.length + l.length by
    simpa using h []
  induction l with
  | nil => intro acc; simp
  | cons y ys ih =>
    intro acc
    simp only [List.foldl_cons, ih, length_jsSortInsert, List.length_cons]
    omega

/-- Sorting the triage list preserves its length. -/
lemma length_sortedTriage (xs : List JsValue) :
    (sortedTriage xs).length = xs.length :=
  length_jsSortBy triageLe xs

/-- A generic successful text result used as the collaborator response
in concrete instantiations. -/
def demoResult : StepResult := { type := .text, data := .str "ok" }

/-- The all-empty results mapping of the initial state. -/
def emptyResults : StepId → Option StepResult := fun _ => none

/-- The initial state of `App`: first step active, example inputs,
nothing running, no error, no results. -/
def initialState : PipelineState :=
  { activeStep := .dataAssembly
    moleculeSmiles := "CCO"
    receptorPdbId := "4HER"
    results := emptyResults
    isLoading := false
    error := none }

/-- A state in which a collaborator call is already in flight. -/
def c1RunningState : PipelineState := { initialState with isLoading := true }

/-- C1 counterexample: with `isRunning` (`isLoading`) true, invoking
`executeActiveStep` (`handleStepExecution`) is not a no-op — the
collaborator call for the active step is issued anyway, and on success
the state changes; the source contains no `isRunning` guard. -/
theorem C1_counterexample :
    c1RunningState.isLoading = true ∧
    (handleStepExecution c1RunningState (.ok demoResult)).2 =
      some (.analyzeDataAssembly "CCO") ∧
    (handleStepExecution c1RunningState (.ok demoResult)).1.results .dataAssembly =
      some demoResult ∧
    c1RunningState.results .dataAssembly = none := by
  exact ⟨rfl, rfl, rfl, rfl⟩

/-- C1 (amended): `handleStepExecution` contains no `isRunning` guard:
its behaviour is identical whether `isLoading` is true or false, so an
invocation while a call is in flight proceeds exactly as when idle
(re-entrancy is prevented only by the UI disabling the trigger
control). -/
theorem C1_no_running_guard (st : PipelineState) (o : Except String StepResult) :
    handleStepExecution { st with isLoading := true } o =
      handleStepExecution { st with isLoading := false } o := by
  cases st with
  | mk a m r res b e => cases a <;> rfl

/-- The triage list of the spec's worked example: `A` at pIC50 `5.0`,
`B` and `C` tied at `7.2` (written `mkRat 36 5`, the exact rational
`7.2`, because decimal literals on `ℚ` do not reduce in the kernel). -/
def c2TriageData : List JsValue := [
  .obj [("smiles", .str "A"), ("pIC50", .num 5)],
  .obj [("smiles", .str "B"), ("pIC50", .num (mkRat 36 5))],
  .obj [("smiles", .str "C"), ("pIC50", .num (mkRat 36 5))]]

/-- A state at `docking-rescoring` whose `rapid-triage` slot holds the
worked example's triage list. -/
def c2State : PipelineState :=
  { initialState with
      activeStep := .dockingRescoring
      results := fun j => if j = .rapidTriage then
          some { type := .json, data := .obj [("triage_results", .arr c2TriageData)] }
        else none }

/-- C2: top-candidate selection stable-sorts the triage list descending
by `pIC50` — on the worked example the sorted order is `B, C, A` (the
`B`/`C` tie retains input order), the top-1 candidate is `"B"`, and the
docking call receives the top-3 smiles `["B", "C", "A"]` together with
the receptor id. -/
theorem C2_top_candidate_selection :
    sortedTriage c2TriageData = [
      .obj [("smiles", .str "B"), ("pIC50", .num (mkRat 36 5))],
      .obj [("smiles", .str "C"), ("pIC50", .num (mkRat 36 5))],
      .obj [("smiles", .str "A"), ("pIC50", .num 5)]] ∧
    getTopTriageCandidate c2State.results = .str "B" ∧
    resolveCall c2State =
      .ok (.runDocking [.str "B", .str "C", .str "A"] "4HER") := by
  exact ⟨rfl, rfl, rfl⟩

/-- C3: executing any dependent step while its required dependency slot
is empty fails with that step's specific "not found" message, issues no
collaborator call, and leaves `results` and `activeStep` (indeed every
field but `error` and `isLoading`) unchanged. -/
theorem C3_dependency_missing (st : PipelineState) (o : Except String StepResult) :
    (st.activeStep = .rapidTriage → st.results .generativeDesign = none →
      handleStepExecution st o =
        ({ st with isLoading := false, error := some genMissingMsg }, none))
    ∧ ((st.activeStep = .dockingRescoring ∨ st.activeStep = .mdSimulation ∨
        st.activeStep = .admetPrediction ∨ st.activeStep = .activeLearning ∨
        st.activeStep = .synthesisPlanning ∨ st.activeStep = .finalReport) →
      st.results .rapidTriage = none →
      handleStepExecution st o =
        ({ st with isLoading := false, error := some triageMissingMsg }, none)) := by
  obtain ⟨a, m, r, res, b, e⟩ := st
  constructor
  · intro ha hg
    simp only at ha
    subst ha
    simp only at hg
    simp [handleStepExecution, resolveCall, hg, genMissingMsg]
  · intro ha hr
    simp only at ha hr
    rcases ha with ha | ha | ha | ha | ha | ha <;> subst ha <;>
      simp [handleStepExecution, resolveCall, getTopTriageCandidate, truthy, hr,
        triageMissingMsg]

/-- A state at `rapid-triage` with every result slot still empty. -/
def c3State : PipelineState := { initialState with activeStep := .rapidTriage }

/-- Witness for C3 at a concrete state: `rapid-triage` with an empty
`generative-design` slot fails with the "Generated molecules not
found" message and no call. -/
theorem C3_dependency_missing_witness :
    handleStepExecution c3State (.ok demoResult) =
      ({ c3State with isLoading := false, error := some genMissingMsg }, none) :=
  (C3_dependency_missing c3State (.ok demoResult)).1 rfl rfl

/-- C4: when the collaborator call for the active step fails,
`executeActiveStep` sets `lastError` to the failure message — or to the
generic fallback when the message is absent (a JavaScript `Error`
constructed without a message carries the empty string, which
`e.message || ...` replaces by the fallback) — leaves `activeStep` and
every slot of `results` unchanged, and ends with `isRunning` false. -/
theorem C4_collaborator_failure (st : PipelineState) (c : CallArgs) (msg : String)
    (h : resolveCall st = .ok c) :
    (msg ≠ "" → (handleStepExecution st (.error msg)).1.error = some msg) ∧
    (msg = "" → (handleStepExecution st (.error msg)).1.error = some fallbackErrorMsg) ∧
    (handleStepExecution st (.error msg)).1.activeStep = st.activeStep ∧
    (handleStepExecution st (.error msg)).1.results = st.results ∧
    (handleStepExecution st (.error msg)).1.isLoading = false ∧
    (handleStepExecution st (.error msg)).2 = some c := by
  by_cases hm : msg = ""
  · subst hm
    simp [handleStepExecution_err st c "" h]
  · simp [handleStepExecution_err st c msg h, hm]

/-- Witness for C4 at a concrete state: a failing `data-assembly` call
with message "Service unavailable" surfaces exactly that message,
leaves the (empty) results and the active step alone, and releases
`isLoading`. -/
theorem C4_collaborator_failure_witness :
    (handleStepExecution initialState (.error "Service unavailable")).1.error =
      some "Service unavailable" ∧
    (handleStepExecution initialState (.error "Service unavailable")).1.activeStep =
      .dataAssembly ∧
    (handleStepExecution initialState (.error "Service unavailable")).1.isLoading = false := by
  have h := C4_collaborator_failure initialState (.analyzeDataAssembly "CCO")
    "Service unavailable" rfl
  exact ⟨h.1 (by decide), h.2.2.1, h.2.2.2.2.1⟩

/-- C5: when the collaborator call for active step `k` succeeds, the
returned result is stored into `results[k]`; if `k` is not the last
step, `activeStep` becomes the next step in the fixed ten-step order,
and if `k` is `final-report` it is unchanged; `isLoading` ends false. -/
theorem C5_success_stores_and_advances (st : PipelineState) (c : CallArgs)
    (r : StepResult) (h : resolveCall st = .ok c) :
    (handleStepExecution st (.ok r)).1.results st.activeStep = some r ∧
    (st.activeStep ≠ .finalReport →
      (handleStepExecution st (.ok r)).1.activeStep = nextInOrder st.activeStep) ∧
    (st.activeStep = .finalReport →
      (handleStepExecution st (.ok r)).1.activeStep = st.activeStep) ∧
    (handleStepExecution st (.ok r)).1.isLoading = false ∧
    (handleStepExecution st (.ok r)).2 = some c := by
  obtain ⟨a, m, rec, res, b, e⟩ := st
  cases a <;>
    refine ⟨?_, fun hne => ?_, fun heq => ?_, ?_, ?_⟩ <;>
    first
      | exact absurd rfl hne
      | exact StepId.noConfusion heq
      | (simp only [handleStepExecution, h]; done)
      | (simp only [handleStepExecution, h]; rfl)

/-- Witness for C5 at a concrete state: a successful `data-assembly`
execution stores the response and auto-advances to
`pocket-detection`. -/
theorem C5_success_stores_and_advances_witness :
    (handleStepExecution initialState (.ok demoResult)).1.results .dataAssembly =
      some demoResult ∧
    (handleStepExecution initialState (.ok demoResult)).1.activeStep =
      .pocketDetection ∧
    (handleStepExecution initialState (.ok demoResult)).1.isLoading = false := by
  have h := C5_success_stores_and_advances initialState (.analyzeDataAssembly "CCO")
    demoResult rfl
  exact ⟨h.1, h.2.1 (by decide), h.2.2.2.1⟩

/-- C7: re-executing a step whose slot is already populated overwrites
only that step's slot — every other slot is unchanged — and
`activeStep` changes only by the normal auto-advance. -/
theorem C7_reexecution_frame (st : PipelineState) (c : CallArgs) (r : StepResult)
    (_hpop : st.results st.activeStep ≠ none) (h : resolveCall st = .ok c) :
    (handleStepExecution st (.ok r)).1.results st.activeStep = some r ∧
    (∀ j, j ≠ st.activeStep →
      (handleStepExecution st (.ok r)).1.results j = st.results j) ∧
    (st.activeStep ≠ .finalReport →
      (handleStepExecution st (.ok r)).1.activeStep = nextInOrder st.activeStep) ∧
    (st.activeStep = .finalReport →
      (handleStepExecution st (.ok r)).1.activeStep = st.activeStep) := by
  rw [handleStepExecution_ok st c r h]
  refine ⟨by simp, fun j hj => by simp [hj], fun hne => rfl, fun heq => ?_⟩
  rw [heq]
  rfl

/-- A state re-executing `data-assembly` with its slot already
populated and another slot populated as well. -/
def c7State : PipelineState :=
  { initialState with
      results := fun j => if j = .dataAssembly then some demoResult
        else if j = .pocketDetection then some demoResult else none }

/-- Witness for C7 at a concrete state: re-running `data-assembly`
leaves the populated `pocket-detection` slot untouched and advances
normally. -/
theorem C7_reexecution_frame_witness :
    (handleStepExecution c7State (.ok demoResult)).1.results .pocketDetection =
      some demoResult ∧
    (handleStepExecution c7State (.ok demoResult)).1.activeStep = .pocketDetection := by
  have h := C7_reexecution_frame c7State (.analyzeDataAssembly "CCO") demoResult
    (by simp [c7State, initialState]) rfl
  exact ⟨(h.2.1 .pocketDetection (by decide)).trans rfl, h.2.2.1 (by decide)⟩

/-- C8: across every public operation — `selectStep`
(`handleStepClick`), editing the SMILES or receptor fields, and
`executeActiveStep` (`handleStepExecution`) with any outcome — a
populated result slot never reverts to empty. -/
theorem C8_slot_never_reverts (st : PipelineState) (s : StepId)
    (h : st.results s ≠ none) :
    (∀ id, (handleStepClick st id).results s ≠ none) ∧
    (∀ v, (setMoleculeSmiles st v).results s ≠ none) ∧
    (∀ v, (setReceptorPdbId st v).results s ≠ none) ∧
    (∀ o, (handleStepExecution st o).1.results s ≠ none) := by
  refine ⟨fun id => h, fun v => h, fun v => h, fun o => ?_⟩
  rcases hrc : resolveCall st with msg | call
  · rw [handleStepExecution_preflight_error st msg o hrc]
    exact h
  · cases o with
    | ok r =>
      rw [handleStepExecution_ok st call r hrc]
      by_cases hs : s = st.activeStep <;> simp [hs, h]
    | error m =>
      rw [handleStepExecution_err st call m hrc]
      exact h

/-- Witness for C8 at a concrete state: with `data-assembly` populated,
navigation and a further execution both keep the slot populated. -/
theorem C8_slot_never_reverts_witness :
    (handleStepClick c7State .finalReport).results .dataAssembly ≠ none ∧
    (setMoleculeSmiles c7State "CCN").results .dataAssembly ≠ none ∧
    (handleStepExecution c7State (.ok demoResult)).1.results .dataAssembly ≠ none := by
  have h := C8_slot_never_reverts c7State .dataAssembly (by simp [c7State, initialState])
  exact ⟨h.1 .finalReport, h.2.1 "CCN", h.2.2.2 (.ok demoResult)⟩

/-- C9: executing any step downstream of `rapid-triage` leaves the
stored `rapid-triage` slot — payload and list order included —
unchanged: the descending sort operates on a copy, and the stored
mapping is only ever written at the executing step's own key. -/
theorem C9_triage_payload_preserved (st : PipelineState) (o : Except String StepResult)
    (h : st.activeStep = .dockingRescoring ∨ st.activeStep = .mdSimulation ∨
      st.activeStep = .admetPrediction ∨ st.activeStep = .activeLearning ∨
      st.activeStep = .synthesisPlanning ∨ st.activeStep = .finalReport) :
    (handleStepExecution st o).1.results .rapidTriage = st.results .rapidTriage := by
  rcases hrc : resolveCall st with msg | call
  · rw [handleStepExecution_preflight_error st msg o hrc]
  · cases o with
    | ok r =>
      rw [handleStepExecution_ok st call r hrc]
      have hne : StepId.rapidTriage ≠ st.activeStep := by
        rcases h with h | h | h | h | h | h <;> rw [h] <;> decide
      simp [hne]
    | error m =>
      rw [handleStepExecution_err st call m hrc]

/-- A state at `md-simulation` with the worked example's triage data
stored in the `rapid-triage` slot. -/
def c9State : PipelineState :=
  { initialState with activeStep := .mdSimulation, results := c2State.results }

/-- Witness for C9 at a concrete state: a successful `md-simulation`
run leaves the stored triage payload untouched. -/
theorem C9_triage_payload_preserved_witness :
    (handleStepExecution c9State (.ok demoResult)).1.results .rapidTriage =
      c9State.results .rapidTriage :=
  C9_triage_payload_preserved c9State (.ok demoResult) (Or.inr (Or.inl rfl))

/-- C10: a non-empty triage list with fewer than three entries does not
make `docking-rescoring` fail — the collaborator is invoked with all
available entries' smiles in descending-`pIC50` order (`slice(0, 3)`
truncates to the list length). -/
theorem C10_short_triage_list (st : PipelineState) (r : StepResult)
    (xs : List JsValue)
    (ha : st.activeStep = .dockingRescoring)
    (hr : st.results .rapidTriage = some r)
    (ht : r.type = .json)
    (hx : getField r.data "triage_results" = .arr xs)
    (h0 : 0 < xs.length) (h3 : xs.length < 3) :
    resolveCall st =
      .ok (.runDocking ((sortedTriage xs).map (fun item => getField item "smiles"))
        st.receptorPdbId) ∧
    ∀ o, (handleStepExecution st o).2 =
      some (.runDocking ((sortedTriage xs).map (fun item => getField item "smiles"))
        st.receptorPdbId) := by
  have htake : (sortedTriage xs).take 3 = sortedTriage xs := by
    apply List.take_of_length_le
    rw [length_sortedTriage]
    omega
  have hrc : resolveCall st =
      .ok (.runDocking ((sortedTriage xs).map (fun item => getField item "smiles"))
        st.receptorPdbId) := by
    obtain ⟨a, m, rec, res, b, e⟩ := st
    simp only at ha hr
    subst ha
    simp [resolveCall, hr, ht, hx, truthy, h0, htake]
  refine ⟨hrc, fun o => ?_⟩
  cases o with
  | ok r2 => rw [handleStepExecution_ok st _ r2 hrc]
  | error m => rw [handleStepExecution_err st _ m hrc]

/-- A two-entry triage list (fewer than three candidates). -/
def c10TriageData : List JsValue := [
  .obj [("smiles", .str "X"), ("pIC50", .num 1)],
  .obj [("smiles", .str "Y"), ("pIC50", .num 2)]]

/-- A state at `docking-rescoring` whose triage slot holds only two
candidates. -/
def c10State : PipelineState :=
  { initialState with
      activeStep := .dockingRescoring
      results := fun j => if j = .rapidTriage then
          some { type := .json, data := .obj [("triage_results", .arr c10TriageData)] }
        else none }

/-- Witness for C10 at a concrete state: with two triage entries, the
docking call receives both smiles, best `pIC50` first. -/
theorem C10_short_triage_list_witness :
    (handleStepExecution c10State (.ok demoResult)).2 =
      some (.runDocking [.str "Y", .str "X"] "4HER") := by
  have h := C10_short_triage_list c10State
    { type := .json, data := .obj [("triage_results", .arr c10TriageData)] }
    c10TriageData rfl rfl rfl rfl (by decide) (by decide)
  exact h.2 (.ok demoResult)

/-- A state at `rapid-triage` whose `generative-design` slot holds an
empty `generated_smiles` list. -/
def c6State : PipelineState :=
  { initialState with
      activeStep := .rapidTriage
      results := fun j => if j = .generativeDesign then
          some { type := .json, data := .obj [("generated_smiles", .arr [])] }
        else none }

/-- C6 counterexample: with `results['generative-design']` holding an
empty `generated_smiles` list, executing `rapid-triage` does not fail —
the empty array is truthy, so the collaborator IS invoked (with the
empty list) and the invocation completes without error, contradicting
the claim that an empty dependency list fails with no network call. -/
theorem C6_counterexample :
    c6State.results .generativeDesign =
      some { type := .json, data := .obj [("generated_smiles", .arr [])] } ∧
    (handleStepExecution c6State (.ok demoResult)).2 =
      some (.triageCandidates (.arr [])) ∧
    (handleStepExecution c6State (.ok demoResult)).1.error = none := by
  exact ⟨rfl, rfl, rfl⟩

/-- Malformed-or-empty `generative-design` dependency for
`rapid-triage`: the slot is missing, the result is not json, or the
`generated_smiles` field is falsy (absent, `null`, `""`, `0`, or
`false`) — exactly the complement of the source's guard
`generatedSmilesResult?.type === 'json' && ...generated_smiles`. -/
def badGenSlot (tr : Option StepResult) : Prop :=
  match tr with
  | none => True
  | some r => r.type ≠ .json ∨ truthy (getField r.data "generated_smiles") = false

/-- Malformed-or-empty `rapid-triage` dependency for the six
downstream steps: the slot is missing, the result is not json, or the
`triage_results` field is anything but a non-empty list — exactly the
complement of the source's guard `type === 'json' && triage_results &&
Array.isArray(...) && length > 0`. -/
def badTriageSlot (tr : Option StepResult) : Prop :=
  match tr with
  | none => True
  | some r =>
    r.type ≠ .json ∨ ∀ ys, getField r.data "triage_results" = .arr ys → ys = []

/-- A malformed-or-empty `generative-design` dependency makes the
`rapid-triage` pre-flight throw its message. -/
lemma resolveCall_rapidTriage_bad (m rec : String)
    (res : StepId → Option StepResult) (b : Bool) (e : Option String)
    (h : badGenSlot (res .generativeDesign)) :
    resolveCall ⟨.rapidTriage, m, rec, res, b, e⟩ = .error genMissingMsg := by
  simp only [resolveCall]
  cases hg : res .generativeDesign with
  | none => rfl
  | some r =>
    rw [hg] at h
    simp only [badGenSlot] at h
    by_cases ht : r.type = .json
    · rcases h with h | h
      · exact absurd ht h
      · simp [ht, h]
    · simp [ht]

/-- A malformed-or-empty `rapid-triage` dependency makes the
`docking-rescoring` pre-flight throw its message. -/
lemma resolveCall_dockingRescoring_bad (m rec : String)
    (res : StepId → Option StepResult) (b : Bool) (e : Option String)
    (h : badTriageSlot (res .rapidTriage)) :
    resolveCall ⟨.dockingRescoring, m, rec, res, b, e⟩ = .error triageMissingMsg := by
  simp only [resolveCall]
  cases htr : res .rapidTriage with
  | none => rfl
  | some r =>
    rw [htr] at h
    simp only [badTriageSlot] at h
    by_cases ht : r.type = .json
    · rcases h with h | h
      · exact absurd ht h
      · simp only [ht, if_true]
        rcases hgf : getField r.data "triage_results" with _ | _ | bb | q | s | ys | fs
        · simp [truthy]
        · simp [truthy]
        · simp [truthy]
        · simp [truthy]
        · simp [truthy]
        · simp [truthy, h ys hgf]
        · simp [truthy]
    · simp [ht]

/-- A malformed-or-empty `rapid-triage` dependency makes
`getTopTriageCandidate` return `null` (which is falsy, so every caller
then throws its message). -/
lemma getTopTriageCandidate_bad (res : StepId → Option StepResult)
    (h : badTriageSlot (res .rapidTriage)) :
    getTopTriageCandidate res = .null := by
  simp only [getTopTriageCandidate]
  cases htr : res .rapidTriage with
  | none => rfl
  | some r =>
    rw [htr] at h
    simp only [badTriageSlot] at h
    by_cases ht : r.type = .json
    · rcases h with h | h
      · exact absurd ht h
      · simp only [ht, if_true]
        rcases hgf : getField r.data "triage_results" with _ | _ | bb | q | s | ys | fs
        · simp [truthy]
        · simp [truthy]
        · simp [truthy]
        · simp [truthy]
        · simp [truthy]
        · simp [truthy, h ys hgf]
        · simp [truthy]
    · simp [ht]

/-- C6 (amended): for every dependent step, a missing dependency slot,
a non-json dependency result, or — for the six steps consuming
`rapid-triage` — a `triage_results` value that is not a list or is an
empty list, and — for `rapid-triage` — a falsy `generated_smiles`
field, fails immediately with the step's descriptive message and no
collaborator call, leaving everything but `error` and `isLoading`
unchanged; however, an empty `generated_smiles` list is truthy, so
`rapid-triage` does NOT fail on it — the collaborator is invoked with
the empty list. -/
theorem C6_malformed_dependency (st : PipelineState) (o : Except String StepResult) :
    (st.activeStep = .rapidTriage → badGenSlot (st.results .generativeDesign) →
      handleStepExecution st o =
        ({ st with isLoading := false, error := some genMissingMsg }, none))
    ∧ (st.activeStep = .rapidTriage →
      ∀ r, st.results .generativeDesign = some r → r.type = .json →
        getField r.data "generated_smiles" = .arr [] →
        (handleStepExecution st o).2 = some (.triageCandidates (.arr [])))
    ∧ ((st.activeStep = .dockingRescoring ∨ st.activeStep = .mdSimulation ∨
        st.activeStep = .admetPrediction ∨ st.activeStep = .activeLearning ∨
        st.activeStep = .synthesisPlanning ∨ st.activeStep = .finalReport) →
      badTriageSlot (st.results .rapidTriage) →
      handleStepExecution st o =
        ({ st with isLoading := false, error := some triageMissingMsg }, none)) := by
  obtain ⟨a, m, rec, res, b, e⟩ := st
  refine ⟨?_, ?_, ?_⟩
  · intro ha hbad
    simp only at ha
    subst ha
    have hrc := resolveCall_rapidTriage_bad m rec res b e hbad
    simp [handleStepExecution_preflight_error _ _ o hrc, genMissingMsg]
  · intro ha r hr ht hgf
    simp only at ha hr
    subst ha
    have hrc : resolveCall ⟨.rapidTriage, m, rec, res, b, e⟩ =
        .ok (.triageCandidates (.arr [])) := by
      simp [resolveCall, hr, ht, hgf, truthy]
    cases o with
    | ok r2 => rw [handleStepExecution_ok _ _ r2 hrc]
    | error msg => rw [handleStepExecution_err _ _ msg hrc]
  · intro ha hbad
    simp only at ha
    rcases ha with ha | ha | ha | ha | ha | ha <;> subst ha
    · have hrc := resolveCall_dockingRescoring_bad m rec res b e hbad
      simp [handleStepExecution_preflight_error _ _ o hrc, triageMissingMsg]
    · have hrc : resolveCall ⟨.mdSimulation, m, rec, res, b, e⟩ =
          .error triageMissingMsg := by
        simp [resolveCall, getTopTriageCandidate_bad res hbad, truthy]
      simp [handleStepExecution_preflight_error _ _ o hrc, triageMissingMsg]
    · have hrc : resolveCall ⟨.admetPrediction, m, rec, res, b, e⟩ =
          .error triageMissingMsg := by
        simp [resolveCall, getTopTriageCandidate_bad res hbad, truthy]
      simp [handleStepExecution_preflight_error _ _ o hrc, triageMissingMsg]
    · have hrc : resolveCall ⟨.activeLearning, m, rec, res, b, e⟩ =
          .error triageMissingMsg := by
        simp [resolveCall, getTopTriageCandidate_bad res hbad, truthy]
      simp [handleStepExecution_preflight_error _ _ o hrc, triageMissingMsg]
    · have hrc : resolveCall ⟨.synthesisPlanning, m, rec, res, b, e⟩ =
          .error triageMissingMsg := by
        simp [resolveCall, getTopTriageCandidate_bad res hbad, truthy]
      simp [handleStepExecution_preflight_error _ _ o hrc, triageMissingMsg]
    · have hrc : resolveCall ⟨.finalReport, m, rec, res, b, e⟩ =
          .error triageMissingMsg := by
        simp [resolveCall, getTopTriageCandidate_bad res hbad, truthy]
      simp [handleStepExecution_preflight_error _ _ o hrc, triageMissingMsg]

/-- A state at `docking-rescoring` whose `rapid-triage` slot holds a
non-list `triage_results` (a plain string). -/
def c6DockState : PipelineState :=
  { initialState with
      activeStep := .dockingRescoring
      results := fun j => if j = .rapidTriage then
          some { type := .json, data := .obj [("triage_results", .str "oops")] }
        else none }

/-- Witness for C6 (amended) at concrete states: the empty
`generated_smiles` list makes `rapid-triage` issue the collaborator
call with the empty list, and a non-list `triage_results` (a plain
string) makes `docking-rescoring` fail with the message and no call. -/
theorem C6_malformed_dependency_witness :
    (handleStepExecution c6State (.error "boom")).2 =
      some (.triageCandidates (.arr [])) ∧
    handleStepExecution c6DockState (.error "boom") =
      ({ c6DockState with isLoading := false, error := some triageMissingMsg }, none) := by
  constructor
  · exact (C6_malformed_dependency c6State (.error "boom")).2.1 rfl
      { type := .json, data := .obj [("generated_smiles", .arr [])] } rfl rfl rfl
  · exact (C6_malformed_dependency c6DockState (.error "boom")).2.2 (Or.inl rfl)
      (Or.inr (fun ys h => JsValue.noConfusion h))
